import Mathlib

/-!
Verification of the website-copy generation pipeline (`backend.py`).

The repository's core is `WebsiteCopySystem.generate_website_copy`, which runs
four LLM-backed stages (research, strategy, drafting, editing) over a
`CopyInput` and a list of section names, returning a dict from section name to
final copy.  We embed the data model, the prompt templates, Python
`str.format`-style template rendering (as used by langchain's f-string
`ChatPromptTemplate`s), the four agent methods, and the orchestrator.

The external LLM (`llm`, a `ChatGroq` instance) is modelled as an oracle
`Service := Nat → Prompt → Except String String`: it receives the rendered
(system, human) message pair and either returns the generated text or fails;
the `Nat` argument is the index of the call within the run, so that a single
oracle can model a service that fails on a particular call.  Each embedded
function additionally threads the list of prompts actually sent to the
service (the call trace), so that claims about the number and order of
service invocations are statable.

Python dicts are embedded as insertion-ordered association lists
(`List (String × String)`) with `dictInsert` reproducing `d[k] = v`
semantics: an existing key keeps its position and gets the new value, a new
key is appended.
-/

set_option maxRecDepth 100000

namespace Copywriter

/-- The `(system, human)` message pair sent to the LLM for one call,
after template rendering. -/
abbrev Prompt := String × String

/-- The external text-generation service: given the index of the call within
the run and the rendered prompt, returns the generated text or fails. -/
abbrev Service := Nat → Prompt → Except String String

/-- Data model: `CopyInput` dataclass (src/backend.py lines 22-33). -/
structure CopyInput where
  product : String
  tone : String := ""
  length : String := ""
  industry : String := ""
  target_audience : String := ""
  brand_voice : String := ""
  unique_selling_points : List String := []
deriving DecidableEq, Repr

/-- Constructor of `CopyInput` including `__post_init__`:
`self.unique_selling_points = self.unique_selling_points or []`, where the
caller may pass `None` (modelled as `Option.none`).  Python's `or` maps a
falsy value (`None` or the empty list) to `[]`. -/
def mkCopyInput (product tone length industry target_audience brand_voice : String)
    (unique_selling_points : Option (List String)) : CopyInput :=
  { product := product, tone := tone, length := length, industry := industry,
    target_audience := target_audience, brand_voice := brand_voice,
    unique_selling_points :=
      match unique_selling_points with
      | none => []
      | some l => if l.isEmpty then [] else l }

/-- Python `str.format`-style rendering of a template, producing the list of
chunks (alternating literal runs and substituted values).  `lit` accumulates
the current literal run (reversed); `fld` is `some acc` while scanning a
`\x7bname\x7d` replacement field (name accumulated reversed in `acc`).
`\x7b\x7b` and `\x7d\x7d` are escapes for literal braces; a single unmatched
brace is an error, as is a field name missing from `vars`.  (Format specs,
indexing and positional fields are not modelled: the repository's templates
use only simple named fields.) -/
def pyFormatGo (vars : List (String × String)) (lit : List Char) :
    Option (List Char) → List Char → Except String (List String)
  | none, [] => Except.ok [String.mk lit.reverse]
  | some _, [] => Except.error "expected closing brace before end of string"
  | some f, c :: rest =>
    if c = '}' then
      match vars.lookup (String.mk f.reverse) with
      | none => Except.error ("missing template variable: " ++ String.mk f.reverse)
      | some v => (pyFormatGo vars [] none rest).map (fun l => String.mk lit.reverse :: v :: l)
    else pyFormatGo vars lit (some (c :: f)) rest
  | none, '{' :: '{' :: rest2 => pyFormatGo vars ('{' :: lit) none rest2
  | none, '{' :: rest => pyFormatGo vars lit (some []) rest
  | none, '}' :: '}' :: rest2 => pyFormatGo vars ('}' :: lit) none rest2
  | none, '}' :: _ => Except.error "single closing brace in template"
  | none, c :: rest => pyFormatGo vars (c :: lit) none rest

/-- Render a template string with the given variable assignment
(Python `template.format(**vars)` as performed by langchain at `invoke`). -/
def pyFormat (vars : List (String × String)) (t : String) : Except String String :=
  (pyFormatGo vars [] none t.data).map String.join

/-- A string containing no brace character (so `str.format` leaves it
unchanged). -/
def braceFreeStr (s : String) : Bool :=
  s.data.all (fun c => !(c == '{') && !(c == '}'))

/-- System template of `ResearchAgent.analyze_target_audience` (line 38). -/
def researchSysT : String :=
  "You are an expert market researcher specializing in {industry}."

/-- Human template of `ResearchAgent.analyze_target_audience` (lines 39-50),
a triple-quoted string transcribed verbatim. -/
def researchHumT : String :=
  "\n                Product: {product}\n                Target Audience: {audience}\n                Industry: {industry}\n                \n                Provide detailed insights about:\n                1. Demographics and psychographics\n                2. Pain points and challenges\n                3. Motivations and goals\n                4. Online behavior and preferences\n                5. Purchase decision factors\n            "

/-- System template of `StrategyAgent.create_content_strategy` (line 63).
This is an f-string: the request's `tone` is interpolated into the template
text itself before the text is used as a prompt template. -/
def strategySysT (copy_input : CopyInput) : String :=
  "You are a content strategist specializing in " ++ copy_input.tone ++ " copy."

/-- Human template of `StrategyAgent.create_content_strategy` (lines 64-75). -/
def strategyHumT : String :=
  "\n                Research: {research}\n                Product: {product}\n                Tone: {tone}\n                USPs: {usps}\n                \n                Create a content strategy with:\n                1. Key messages and themes\n                2. Tone guidelines\n                3. Section priorities\n                4. Conversion goals\n            "

/-- System template of `CopywritingAgent.write_website_copy` (line 89). -/
def draftSysT : String :=
  "Expert copywriter creating {length} {tone} content."

/-- Human template of `CopywritingAgent.write_website_copy` (lines 90-102). -/
def draftHumT : String :=
  "\n                Strategy: {strategy}\n                Section: {section}\n                Product: {product}\n                Brand Voice: {brand_voice}\n                USPs: {usps}\n                \n                Write compelling copy focusing on:\n                - Clear value proposition\n                - Engaging headlines\n                - {tone} body copy of {length} length\n                - Strategic CTAs\n            "

/-- System template of `EditorAgent.review_copy` (line 119). -/
def editorSysT : String :=
  "You are an expert copy editor."

/-- Human template of `EditorAgent.review_copy` (lines 120-129). -/
def editorHumT : String :=
  "\n                Review this website copy:\n                {copy}\n                \n                Improve:\n                - Clarity and conciseness\n                - Persuasiveness\n                - Brand voice consistency\n                - Grammar and style\n            "

/-- Variable assignment of the research stage's `chain.invoke` (lines 53-57). -/
def researchVars (copy_input : CopyInput) : List (String × String) :=
  [("industry", copy_input.industry), ("product", copy_input.product),
   ("audience", copy_input.target_audience)]

/-- Variable assignment of the strategy stage's `chain.invoke` (lines 78-83),
including `", ".join(copy_input.unique_selling_points)`. -/
def strategyVars (research_data : String) (copy_input : CopyInput) : List (String × String) :=
  [("research", research_data), ("product", copy_input.product),
   ("tone", copy_input.tone),
   ("usps", String.intercalate ", " copy_input.unique_selling_points)]

/-- Variable assignment of the drafting stage's `chain.invoke` (lines 105-113). -/
def draftVars (strategy sec : String) (copy_input : CopyInput) : List (String × String) :=
  [("length", copy_input.length), ("tone", copy_input.tone),
   ("strategy", strategy), ("section", sec),
   ("product", copy_input.product), ("brand_voice", copy_input.brand_voice),
   ("usps", String.intercalate ", " copy_input.unique_selling_points)]

/-- Variable assignment of the editor stage's `chain.invoke` (line 132). -/
def editorVars (copy : String) : List (String × String) :=
  [("copy", copy)]

/-- One `chain.invoke` round trip: render the system and human templates with
the stage's variables (failures at this step are template errors raised
before the LLM is reached), then call the service with the rendered pair.
The second component is the updated call trace: the prompt is recorded
exactly when the service is actually invoked. -/
def invokeChain (svc : Service) (tr : List Prompt) (sysT humT : String)
    (vars : List (String × String)) : Except String String × List Prompt :=
  match pyFormat vars sysT with
  | Except.error e => (Except.error e, tr)
  | Except.ok s =>
    match pyFormat vars humT with
    | Except.error e => (Except.error e, tr)
    | Except.ok h =>
      match svc tr.length (s, h) with
      | Except.error e => (Except.error e, tr ++ [(s, h)])
      | Except.ok r => (Except.ok r, tr ++ [(s, h)])

/-- `ResearchAgent.analyze_target_audience` (lines 36-58). -/
def analyze_target_audience (svc : Service) (tr : List Prompt) (copy_input : CopyInput) :
    Except String String × List Prompt :=
  invokeChain svc tr researchSysT researchHumT (researchVars copy_input)

/-- `StrategyAgent.create_content_strategy` (lines 61-84). -/
def create_content_strategy (svc : Service) (tr : List Prompt) (research_data : String)
    (copy_input : CopyInput) : Except String String × List Prompt :=
  invokeChain svc tr (strategySysT copy_input) strategyHumT (strategyVars research_data copy_input)

/-- `CopywritingAgent.write_website_copy` (lines 87-114). -/
def write_website_copy (svc : Service) (tr : List Prompt) (strategy sec : String)
    (copy_input : CopyInput) : Except String String × List Prompt :=
  invokeChain svc tr draftSysT draftHumT (draftVars strategy sec copy_input)

/-- `EditorAgent.review_copy` (lines 117-133). -/
def review_copy (svc : Service) (tr : List Prompt) (copy : String) :
    Except String String × List Prompt :=
  invokeChain svc tr editorSysT editorHumT (editorVars copy)

/-- Python dict assignment `d[k] = v` on an insertion-ordered dict:
an existing key keeps its position and receives the new value; a fresh key is
appended at the end. -/
def dictInsert (d : List (String × String)) (k v : String) : List (String × String) :=
  if d.any (fun p => p.1 == k) then d.map (fun p => if p.1 = k then (k, v) else p)
  else d ++ [(k, v)]

/-- Sequential dict assignments. -/
def dictInsertAll (d : List (String × String)) (ps : List (String × String)) :
    List (String × String) :=
  ps.foldl (fun d p => dictInsert d p.1 p.2) d

/-- The `for section in sections` loop of
`WebsiteCopySystem.generate_website_copy` (lines 149-158): draft the section,
edit the draft, store the edited copy under the section's key. -/
def sectionLoop (svc : Service) (copy_input : CopyInput) (strategy : String) :
    List String → List (String × String) → List Prompt →
    Except String (List (String × String)) × List Prompt
  | [], acc, tr => (Except.ok acc, tr)
  | s :: rest, acc, tr =>
    match write_website_copy svc tr strategy s copy_input with
    | (Except.error e, tr1) => (Except.error e, tr1)
    | (Except.ok initial_copy, tr1) =>
      match review_copy svc tr1 initial_copy with
      | (Except.error e, tr2) => (Except.error e, tr2)
      | (Except.ok final_copy, tr2) =>
        sectionLoop svc copy_input strategy rest (dictInsert acc s final_copy) tr2

/-- Body of the `try` block of `generate_website_copy` (lines 145-158):
research once, strategy once, then the per-section loop. -/
def generate_core (svc : Service) (copy_input : CopyInput) (sections : List String) :
    Except String (List (String × String)) × List Prompt :=
  match analyze_target_audience svc [] copy_input with
  | (Except.error e, tr) => (Except.error e, tr)
  | (Except.ok research, tr) =>
    match create_content_strategy svc tr research copy_input with
    | (Except.error e, tr1) => (Except.error e, tr1)
    | (Except.ok strategy, tr1) => sectionLoop svc copy_input strategy sections [] tr1

/-- `WebsiteCopySystem.generate_website_copy` (lines 144-161): the `try` body,
with any exception re-raised as `Exception(f"Copy generation failed: {str(e)}")`. -/
def generate_website_copy (svc : Service) (copy_input : CopyInput) (sections : List String) :
    Except String (List (String × String)) × List Prompt :=
  match generate_core svc copy_input sections with
  | (Except.ok res, tr) => (Except.ok res, tr)
  | (Except.error e, tr) => (Except.error ("Copy generation failed: " ++ e), tr)

/-- Value of a successful service or rendering step (used to express, after
the fact, which text a successful call returned; failing runs are
characterised separately, so the `""` default is never relied upon). -/
def okValue : Except String String → String
  | Except.ok r => r
  | Except.error _ => ""

/-- Rendered research system message. -/
def researchSysR (ci : CopyInput) : String :=
  String.join ["You are an expert market researcher specializing in ", ci.industry, "."]

/-- Rendered research human message. -/
def researchHumR (ci : CopyInput) : String :=
  String.join ["\n                Product: ", ci.product,
    "\n                Target Audience: ", ci.target_audience,
    "\n                Industry: ", ci.industry,
    "\n                \n                Provide detailed insights about:\n                1. Demographics and psychographics\n                2. Pain points and challenges\n                3. Motivations and goals\n                4. Online behavior and preferences\n                5. Purchase decision factors\n            "]

/-- Rendered research prompt. -/
def researchPromptR (ci : CopyInput) : Prompt :=
  (researchSysR ci, researchHumR ci)

/-- Rendered strategy human message, given the research narrative. -/
def strategyHumR (research : String) (ci : CopyInput) : String :=
  String.join ["\n                Research: ", research,
    "\n                Product: ", ci.product,
    "\n                Tone: ", ci.tone,
    "\n                USPs: ", String.intercalate ", " ci.unique_selling_points,
    "\n                \n                Create a content strategy with:\n                1. Key messages and themes\n                2. Tone guidelines\n                3. Section priorities\n                4. Conversion goals\n            "]

/-- Rendered drafting system message. -/
def draftSysR (ci : CopyInput) : String :=
  String.join ["Expert copywriter creating ", ci.length, " ", ci.tone, " content."]

/-- Rendered drafting human message for one section. -/
def draftHumR (strategy sec : String) (ci : CopyInput) : String :=
  String.join ["\n                Strategy: ", strategy,
    "\n                Section: ", sec,
    "\n                Product: ", ci.product,
    "\n                Brand Voice: ", ci.brand_voice,
    "\n                USPs: ", String.intercalate ", " ci.unique_selling_points,
    "\n                \n                Write compelling copy focusing on:\n                - Clear value proposition\n                - Engaging headlines\n                - ", ci.tone,
    " body copy of ", ci.length,
    " length\n                - Strategic CTAs\n            "]

/-- Rendered drafting prompt for one section. -/
def draftPromptR (strategy sec : String) (ci : CopyInput) : Prompt :=
  (draftSysR ci, draftHumR strategy sec ci)

/-- Rendered editor human message for one draft. -/
def editorHumR (draft : String) : String :=
  String.join ["\n                Review this website copy:\n                ", draft,
    "\n                \n                Improve:\n                - Clarity and conciseness\n                - Persuasiveness\n                - Brand voice consistency\n                - Grammar and style\n            "]

/-- Rendered editor prompt for one draft. -/
def editorPromptR (draft : String) : Prompt :=
  ("You are an expert copy editor.", editorHumR draft)

/-- The research narrative a run obtains: the service's answer to call 0. -/
def researchOut (svc : Service) (ci : CopyInput) : String :=
  okValue (svc 0 (researchPromptR ci))

/-- The strategy prompt a run sends as call 1: the f-string system template
rendered with the strategy variables (it normally contains no replacement
field, but the interpolated `tone` may introduce some), paired with the
rendered strategy human message. -/
def strategyPromptR (svc : Service) (ci : CopyInput) : Prompt :=
  (okValue (pyFormat (strategyVars (researchOut svc ci) ci) (strategySysT ci)),
   strategyHumR (researchOut svc ci) ci)

/-- The strategy narrative a run obtains: the service's answer to call 1. -/
def strategyOut (svc : Service) (ci : CopyInput) : String :=
  okValue (svc 1 (strategyPromptR svc ci))

/-- The prompts a successful section loop sends, starting at call `base`:
for each section, the drafting prompt, then the editor prompt built from the
service's answer to that drafting call. -/
def loopTraceR (svc : Service) (ci : CopyInput) (strategy : String) :
    Nat → List String → List Prompt
  | _, [] => []
  | base, s :: rest =>
    draftPromptR strategy s ci ::
    editorPromptR (okValue (svc base (draftPromptR strategy s ci))) ::
    loopTraceR svc ci strategy (base + 2) rest

/-- The final (edited) copy a successful section loop produces per section
occurrence, starting at call `base`: the service's answer to the editor call
that follows each drafting call. -/
def loopFinalsR (svc : Service) (ci : CopyInput) (strategy : String) :
    Nat → List String → List String
  | _, [] => []
  | base, s :: rest =>
    okValue (svc (base + 1) (editorPromptR (okValue (svc base (draftPromptR strategy s ci))))) ::
    loopFinalsR svc ci strategy (base + 2) rest

/-- First occurrences of a list, in order: `edkfGo seen l` drops the elements
already in `seen` and keeps the first occurrence of each new element. -/
def edkfGo (seen : List String) : List String → List String
  | [] => []
  | s :: rest => if s ∈ seen then edkfGo seen rest else s :: edkfGo (s :: seen) rest

/-- The distinct elements of a list, each at its first occurrence, in order. -/
def eraseDupsKeepFirst (l : List String) : List String :=
  edkfGo [] l

/-- The value paired with the last occurrence of `k` in an association list
(`none` if `k` does not occur). -/
def lastFind : List (String × String) → String → Option String
  | [], _ => none
  | p :: rest, k =>
    match lastFind rest k with
    | some v => some v
    | none => if p.1 == k then some p.2 else none

theorem research_render_sys (ci : CopyInput) :
    pyFormat (researchVars ci) researchSysT = Except.ok (researchSysR ci) := rfl

theorem research_render_hum (ci : CopyInput) :
    pyFormat (researchVars ci) researchHumT = Except.ok (researchHumR ci) := rfl

theorem strategy_render_hum (research : String) (ci : CopyInput) :
    pyFormat (strategyVars research ci) strategyHumT = Except.ok (strategyHumR research ci) := rfl

theorem draft_render_sys (strategy sec : String) (ci : CopyInput) :
    pyFormat (draftVars strategy sec ci) draftSysT = Except.ok (draftSysR ci) := rfl

theorem draft_render_hum (strategy sec : String) (ci : CopyInput) :
    pyFormat (draftVars strategy sec ci) draftHumT = Except.ok (draftHumR strategy sec ci) := rfl

theorem editor_render_sys (draft : String) :
    pyFormat (editorVars draft) editorSysT = Except.ok "You are an expert copy editor." := rfl

theorem editor_render_hum (draft : String) :
    pyFormat (editorVars draft) editorHumT = Except.ok (editorHumR draft) := rfl

theorem pyFormatGo_braceFree (vars : List (String × String)) :
    ∀ cs : List Char, cs.all (fun c => !(c == '{') && !(c == '}')) = true →
    ∀ lit : List Char, pyFormatGo vars lit none cs = Except.ok [String.mk (lit.reverse ++ cs)] := by
  intro cs
  induction cs with
  | nil => intro _ lit; simp [pyFormatGo]
  | cons c rest ih =>
    intro h lit
    simp only [List.all_cons, Bool.and_eq_true, Bool.not_eq_true'] at h
    obtain ⟨⟨hc1, hc2⟩, hrest⟩ := h
    rw [beq_eq_false_iff_ne] at hc1 hc2
    rw [pyFormatGo.eq_def]
    split
    all_goals simp_all [List.append_assoc]

/-- A brace-free template renders to itself under any variable assignment. -/
theorem pyFormat_braceFree (vars : List (String × String)) (t : String)
    (h : braceFreeStr t = true) : pyFormat vars t = Except.ok t := by
  unfold pyFormat
  rw [pyFormatGo_braceFree vars t.data h []]
  rfl

theorem braceFreeStr_append (a b : String) :
    braceFreeStr (a ++ b) = (braceFreeStr a && braceFreeStr b) := by
  simp [braceFreeStr, String.data_append, List.all_append]

/-- When the request's `tone` contains no brace, the f-string strategy system
template renders to itself. -/
theorem strategy_render_sys_braceFree (research : String) (ci : CopyInput)
    (h : braceFreeStr ci.tone = true) :
    pyFormat (strategyVars research ci) (strategySysT ci) = Except.ok (strategySysT ci) := by
  apply pyFormat_braceFree
  have hp : braceFreeStr "You are a content strategist specializing in " = true := by decide
  have hs : braceFreeStr " copy." = true := by decide
  simp [strategySysT, braceFreeStr_append, hp, hs, h]

theorem edkfGo_congr_seen (l : List String) :
    ∀ seen₁ seen₂, (∀ x, x ∈ seen₁ ↔ x ∈ seen₂) → edkfGo seen₁ l = edkfGo seen₂ l := by
  induction l with
  | nil => intro _ _ _; rfl
  | cons s rest ih =>
    intro s1 s2 h
    simp only [edkfGo]
    by_cases hs : s ∈ s1
    · rw [if_pos hs, if_pos ((h s).mp hs), ih s1 s2 h]
    · rw [if_neg hs, if_neg (fun hh => hs ((h s).mpr hh))]
      rw [ih (s :: s1) (s :: s2) (fun x => by simp [h x])]

theorem map_fst_dictInsert (d : List (String × String)) (k v : String) :
    (dictInsert d k v).map Prod.fst =
      if k ∈ d.map Prod.fst then d.map Prod.fst else d.map Prod.fst ++ [k] := by
  unfold dictInsert
  have hmem : (d.any fun p => p.1 == k) = true ↔ k ∈ d.map Prod.fst := by
    simp [List.any_eq_true, List.mem_map, beq_iff_eq]
  by_cases hk : k ∈ d.map Prod.fst
  · rw [if_pos hk, if_pos (hmem.mpr hk)]
    rw [List.map_map]
    apply List.map_congr_left
    intro p _
    by_cases hp : p.1 = k
    · simp [Function.comp, hp]
    · simp [Function.comp, hp]
  · rw [if_neg hk, if_neg (fun h => hk (hmem.mp h))]
    simp

theorem lookup_mapReplace_ne (d : List (String × String)) (a v k : String) (hak : a ≠ k) :
    List.lookup k (d.map (fun p => if p.1 = a then (a, v) else p)) = List.lookup k d := by
  induction d with
  | nil => rfl
  | cons p d ih =>
    have h2 : (k == a) = false := beq_eq_false_iff_ne.mpr (fun h => hak h.symm)
    by_cases hp : p.1 = a
    · have h3 : (k == p.1) = false := by rw [hp]; exact h2
      rw [List.map_cons, if_pos hp]
      simp only [List.lookup, h2, h3]
      exact ih
    · rw [List.map_cons, if_neg hp]
      cases hkp : (k == p.1) with
      | true => simp only [List.lookup, hkp]
      | false => simp only [List.lookup, hkp]; exact ih

theorem lookup_mapReplace_mem (d : List (String × String)) (a v : String)
    (h : (d.any fun p => p.1 == a) = true) :
    List.lookup a (d.map (fun p => if p.1 = a then (a, v) else p)) = some v := by
  induction d with
  | nil => simp at h
  | cons p d ih =>
    by_cases hp : p.1 = a
    · rw [List.map_cons, if_pos hp]
      simp [List.lookup]
    · have h1 : (p.1 == a) = false := beq_eq_false_iff_ne.mpr hp
      have h2 : (a == p.1) = false := beq_eq_false_iff_ne.mpr (fun hh => hp hh.symm)
      have h3 : (d.any fun p => p.1 == a) = true := by simpa [List.any_cons, h1] using h
      rw [List.map_cons, if_neg hp]
      simp only [List.lookup, h2]
      exact ih h3

theorem lookup_append_single (d : List (String × String)) (a v k : String) :
    List.lookup k (d ++ [(a, v)]) =
      match List.lookup k d with
      | some w => some w
      | none => if k == a then some v else none := by
  induction d with
  | nil =>
    cases hka : (k == a) with
    | true => simp [List.lookup, hka]
    | false => simp [List.lookup, hka]
  | cons p d ih =>
    cases hkp : (k == p.1) with
    | true => simp [List.lookup, hkp]
    | false => simp [List.lookup, hkp, ih]

theorem lookup_eq_none_of_any_false (d : List (String × String)) (a : String)
    (h : (d.any fun p => p.1 == a) = false) : List.lookup a d = none := by
  induction d with
  | nil => rfl
  | cons p d ih =>
    simp only [List.any_cons, Bool.or_eq_false_iff] at h
    have h2 : (a == p.1) = false :=
      beq_eq_false_iff_ne.mpr (fun hh => (beq_eq_false_iff_ne.mp h.1) hh.symm)
    simp [List.lookup, h2, ih h.2]

/-- Python dict assignment followed by lookup: the assigned key now maps to
the new value, every other key is unaffected. -/
theorem lookup_dictInsert (d : List (String × String)) (a v k : String) :
    List.lookup k (dictInsert d a v) = if a = k then some v else List.lookup k d := by
  unfold dictInsert
  by_cases hany : (d.any fun p => p.1 == a) = true
  · rw [if_pos hany]
    by_cases hak : a = k
    · subst hak
      rw [if_pos rfl]
      exact lookup_mapReplace_mem d a v hany
    · rw [if_neg hak]
      exact lookup_mapReplace_ne d a v k hak
  · rw [if_neg hany]
    rw [lookup_append_single]
    rw [Bool.not_eq_true] at hany
    by_cases hak : a = k
    · subst hak
      rw [lookup_eq_none_of_any_false d a hany]
      simp
    · rw [if_neg hak]
      cases hl : List.lookup k d with
      | some w => rfl
      | none =>
        simp only
        rw [if_neg (by simp [beq_iff_eq]; exact fun h => hak h.symm)]

/-- Sequential dict assignments followed by lookup: the last assignment to a
key wins; keys never assigned fall through to the initial dict. -/
theorem lookup_dictInsertAll (ps : List (String × String)) :
    ∀ d k, List.lookup k (dictInsertAll d ps) =
      match lastFind ps k with
      | some v => some v
      | none => List.lookup k d := by
  induction ps with
  | nil => intro d k; rfl
  | cons p ps ih =>
    intro d k
    obtain ⟨a, b⟩ := p
    show List.lookup k (dictInsertAll (dictInsert d a b) ps) = _
    rw [ih]
    cases hf : lastFind ps k with
    | some v => simp [lastFind, hf]
    | none =>
      simp only [lastFind, hf, lookup_dictInsert]
      by_cases hak : a = k
      · subst hak; simp
      · rw [if_neg hak, if_neg (by simpa [beq_iff_eq] using hak)]

theorem map_fst_dictInsertAll (ps : List (String × String)) :
    ∀ d, (dictInsertAll d ps).map Prod.fst =
      d.map Prod.fst ++ edkfGo (d.map Prod.fst) (ps.map Prod.fst) := by
  induction ps with
  | nil => intro d; simp [dictInsertAll, edkfGo]
  | cons p ps ih =>
    intro d
    obtain ⟨a, b⟩ := p
    show (dictInsertAll (dictInsert d a b) ps).map Prod.fst = _
    rw [ih, map_fst_dictInsert]
    by_cases ha : a ∈ d.map Prod.fst
    · rw [if_pos ha]
      simp only [List.map_cons, edkfGo, if_pos ha]
    · rw [if_neg ha]
      simp only [List.map_cons, edkfGo, if_neg ha]
      rw [List.append_assoc, List.singleton_append]
      congr 1
      congr 1
      exact edkfGo_congr_seen (ps.map Prod.fst) _ _
        (fun x => by simp [or_comm])

theorem edkfGo_nodup :
    ∀ (l seen : List String), (edkfGo seen l).Nodup ∧ ∀ x ∈ edkfGo seen l, x ∉ seen := by
  intro l
  induction l with
  | nil => intro seen; simp [edkfGo]
  | cons s rest ih =>
    intro seen
    by_cases hs : s ∈ seen
    · simpa [edkfGo, hs] using ih seen
    · simp only [edkfGo, if_neg hs]
      obtain ⟨hnd, hmem⟩ := ih (s :: seen)
      refine ⟨List.nodup_cons.mpr ⟨fun hin => (hmem s hin) (List.mem_cons_self s seen), hnd⟩, ?_⟩
      intro x hx
      rcases List.mem_cons.mp hx with rfl | hx2
      · exact hs
      · exact fun hxseen => hmem x hx2 (List.mem_cons_of_mem s hxseen)

theorem lastFind_eq_none (ps : List (String × String)) (k : String)
    (h : k ∉ ps.map Prod.fst) : lastFind ps k = none := by
  induction ps with
  | nil => rfl
  | cons p rest ih =>
    simp only [List.map_cons, List.mem_cons] at h
    push_neg at h
    have hne : (p.1 == k) = false := beq_eq_false_iff_ne.mpr (fun hh => h.1 hh.symm)
    simp [lastFind, ih h.2, hne]

/-- In an association list whose keys are `sections`, `lastFind` picks the
value paired with the last occurrence of the searched key. -/
theorem lastFind_zip_lastOcc :
    ∀ (sections finals : List String) (i : Nat) (s : String),
      finals.length = sections.length → sections[i]? = some s →
      (∀ j, i < j → sections[j]? ≠ some s) →
      lastFind (sections.zip finals) s = finals[i]? := by
  intro sections
  induction sections with
  | nil => intro finals i s _ hi _; simp at hi
  | cons s0 rest ih =>
    intro finals i s hlen hi hlater
    cases finals with
    | nil => simp at hlen
    | cons f0 frest =>
      simp only [List.length_cons, Nat.succ.injEq] at hlen
      cases i with
      | zero =>
        have hs0 : s0 = s := by simpa using hi
        have hnot : s ∉ rest := by
          intro hmem
          obtain ⟨j, hj⟩ := List.mem_iff_getElem?.mp hmem
          exact hlater (j + 1) (Nat.succ_pos j) (by simpa using hj)
        have hnone : lastFind (rest.zip frest) s = none := by
          apply lastFind_eq_none
          rw [List.map_fst_zip rest frest (le_of_eq hlen.symm)]
          exact hnot
        have hbeq : (s0 == s) = true := beq_iff_eq.mpr hs0
        have hnone2 : lastFind (List.zipWith Prod.mk rest frest) s = none := hnone
        simp [List.zip_cons_cons, lastFind, hnone, hnone2, hbeq]
      | succ i2 =>
        have hi2 : rest[i2]? = some s := by simpa using hi
        have hlater2 : ∀ j, i2 < j → rest[j]? ≠ some s := by
          intro j hj
          have := hlater (j + 1) (Nat.succ_lt_succ hj)
          simpa using this
        have hres := ih frest i2 s hlen hi2 hlater2
        have hlt : i2 < rest.length := by
          by_contra hge
          rw [List.getElem?_eq_none (Nat.le_of_not_lt hge)] at hi2
          simp at hi2
        have hlt2 : i2 < frest.length := hlen ▸ hlt
        have hv : frest[i2]? = some frest[i2] := List.getElem?_eq_getElem hlt2
        rw [hv] at hres
        have hres2 : lastFind (List.zipWith Prod.mk rest frest) s = some frest[i2] := hres
        simp [List.zip_cons_cons, lastFind, hres, hres2, hv]

theorem loopTraceR_length (svc : Service) (ci : CopyInput) (strategy : String) :
    ∀ (sections : List String) (base : Nat),
      (loopTraceR svc ci strategy base sections).length = 2 * sections.length := by
  intro sections
  induction sections with
  | nil => intro base; simp [loopTraceR]
  | cons s rest ih =>
    intro base
    simp only [loopTraceR, List.length_cons, ih, List.length_cons]
    omega

theorem loopFinalsR_length (svc : Service) (ci : CopyInput) (strategy : String) :
    ∀ (sections : List String) (base : Nat),
      (loopFinalsR svc ci strategy base sections).length = sections.length := by
  intro sections
  induction sections with
  | nil => intro base; simp [loopFinalsR]
  | cons s rest ih => intro base; simp [loopFinalsR, ih]

theorem loopTraceR_getElem (svc : Service) (ci : CopyInput) (strategy : String) :
    ∀ (sections : List String) (base : Nat) (i : Nat) (s : String),
      sections[i]? = some s →
      (loopTraceR svc ci strategy base sections)[2 * i]? =
        some (draftPromptR strategy s ci) ∧
      (loopTraceR svc ci strategy base sections)[2 * i + 1]? =
        some (editorPromptR (okValue (svc (base + 2 * i) (draftPromptR strategy s ci)))) := by
  intro sections
  induction sections with
  | nil => intro base i s hi; simp at hi
  | cons s0 rest ih =>
    intro base i s hi
    cases i with
    | zero => simp only [List.getElem?_cons_zero, Option.some.injEq] at hi; subst hi; simp [loopTraceR]
    | succ i2 =>
      have hi2 : rest[i2]? = some s := by simpa using hi
      have harrange : base + 2 + 2 * i2 = base + 2 * (i2 + 1) := by ring
      have := ih (base + 2) i2 s hi2
      rw [harrange] at this
      obtain ⟨h1, h2⟩ := this
      constructor
      · have hidx : 2 * (i2 + 1) = (2 * i2 + 1) + 1 := by ring
        rw [hidx]
        simpa [loopTraceR] using h1
      · have hidx : 2 * (i2 + 1) + 1 = (2 * i2 + 1 + 1) + 1 := by ring
        rw [hidx]
        simpa [loopTraceR] using h2

/-- Characterisation of a successful section loop: the accumulated dict is
the sequence of dict assignments of each section's final copy, and the calls
made are draft/edit pairs in section order. -/
theorem sectionLoop_ok (svc : Service) (ci : CopyInput) (strategy : String) :
    ∀ (sections : List String) (acc : List (String × String)) (tr : List Prompt)
      (result : List (String × String)) (tr₂ : List Prompt),
      sectionLoop svc ci strategy sections acc tr = (Except.ok result, tr₂) →
      result = dictInsertAll acc
        (sections.zip (loopFinalsR svc ci strategy tr.length sections)) ∧
      tr₂ = tr ++ loopTraceR svc ci strategy tr.length sections := by
  intro sections
  induction sections with
  | nil =>
    intro acc tr result tr₂ h
    simp only [sectionLoop, Prod.mk.injEq, Except.ok.injEq] at h
    obtain ⟨h1, h2⟩ := h
    subst h1
    subst h2
    simp [loopFinalsR, loopTraceR, dictInsertAll]
  | cons s rest ih =>
    intro acc tr result tr₂ h
    simp only [sectionLoop, write_website_copy, invokeChain, draft_render_sys,
      draft_render_hum] at h
    cases hd : svc tr.length (draftSysR ci, draftHumR strategy s ci) with
    | error e => rw [hd] at h; simp at h
    | ok draft =>
      rw [hd] at h
      simp only [review_copy, invokeChain, editor_render_sys, editor_render_hum,
        List.length_append, List.length_cons, List.length_nil] at h
      cases he : svc (tr.length + 1) ("You are an expert copy editor.", editorHumR draft) with
      | error e => rw [he] at h; simp at h
      | ok final =>
        rw [he] at h
        rw [show (tr ++ [(draftSysR ci, draftHumR strategy s ci)]) ++
              [("You are an expert copy editor.", editorHumR draft)] =
            tr ++ [(draftSysR ci, draftHumR strategy s ci),
              ("You are an expert copy editor.", editorHumR draft)] from by simp] at h
        obtain ⟨h1, h2⟩ := ih (dictInsert acc s final) _ result tr₂ h
        simp only [List.length_append, List.length_cons, List.length_nil] at h1 h2
        constructor
        · rw [h1]
          simp only [loopFinalsR, draftPromptR, hd, okValue, editorPromptR, he,
            List.zip_cons_cons, dictInsertAll, List.foldl_cons]
        · rw [h2]
          simp only [loopTraceR, draftPromptR, hd, okValue, editorPromptR]
          simp [List.append_assoc]

/-- Characterisation of a successful run of the `try` body: the strategy
system template rendered successfully, calls 0 and 1 are the research and
strategy prompts and succeeded, the result is the sequence of per-section
dict assignments, and the trace is research, strategy, then the per-section
draft/edit pairs. -/
theorem generate_core_ok (svc : Service) (ci : CopyInput) (sections : List String)
    (result : List (String × String)) (tr : List Prompt)
    (h : generate_core svc ci sections = (Except.ok result, tr)) :
    pyFormat (strategyVars (researchOut svc ci) ci) (strategySysT ci) =
      Except.ok (strategyPromptR svc ci).1 ∧
    svc 0 (researchPromptR ci) = Except.ok (researchOut svc ci) ∧
    svc 1 (strategyPromptR svc ci) = Except.ok (strategyOut svc ci) ∧
    result = dictInsertAll []
      (sections.zip (loopFinalsR svc ci (strategyOut svc ci) 2 sections)) ∧
    tr = researchPromptR ci :: strategyPromptR svc ci ::
      loopTraceR svc ci (strategyOut svc ci) 2 sections := by
  simp only [generate_core, analyze_target_audience, invokeChain, research_render_sys,
    research_render_hum, List.length_nil, List.nil_append] at h
  cases h0 : svc 0 (researchSysR ci, researchHumR ci) with
  | error e => rw [h0] at h; simp at h
  | ok research =>
    rw [h0] at h
    have hro : researchOut svc ci = research := by
      simp [researchOut, researchPromptR, h0, okValue]
    simp only [create_content_strategy, invokeChain, strategy_render_hum,
      List.length_cons, List.length_nil] at h
    cases hsys : pyFormat (strategyVars research ci) (strategySysT ci) with
    | error e => rw [hsys] at h; simp at h
    | ok sysS =>
      rw [hsys] at h
      simp only [Nat.zero_add] at h
      have hsp : strategyPromptR svc ci = (sysS, strategyHumR research ci) := by
        simp [strategyPromptR, hro, hsys, okValue]
      cases h1 : svc 1 (sysS, strategyHumR research ci) with
      | error e => rw [h1] at h; simp at h
      | ok strat =>
        rw [h1] at h
        have hso : strategyOut svc ci = strat := by
          simp [strategyOut, hsp, h1, okValue]
        simp only [List.singleton_append] at h
        obtain ⟨hres, htr⟩ := sectionLoop_ok svc ci strat sections _ _ result tr h
        simp only [List.length_cons, List.length_nil] at hres htr
        refine ⟨?_, ?_, ?_, ?_, ?_⟩
        · rw [hro, hsp]; exact hsys
        · rw [hro]; exact h0
        · rw [hsp, hso]; exact h1
        · rw [hres, hso]
        · rw [htr, hso, hsp]
          simp [researchPromptR]

/-- The orchestrator returns the `try` body's successes unchanged. -/
theorem generate_ok_core (svc : Service) (ci : CopyInput) (sections : List String)
    (result : List (String × String)) (tr : List Prompt)
    (h : generate_website_copy svc ci sections = (Except.ok result, tr)) :
    generate_core svc ci sections = (Except.ok result, tr) := by
  unfold generate_website_copy at h
  cases hc : generate_core svc ci sections with
  | mk r t =>
    cases r with
    | ok res => rw [hc] at h; simpa using h
    | error e => rw [hc] at h; simp at h

/-- The orchestrator wraps any failure of the `try` body in the generic
pipeline failure carrying the original failure's description. -/
theorem generate_error_wrap (svc : Service) (ci : CopyInput) (sections : List String)
    (e : String) (tr : List Prompt)
    (h : generate_core svc ci sections = (Except.error e, tr)) :
    generate_website_copy svc ci sections =
      (Except.error ("Copy generation failed: " ++ e), tr) := by
  unfold generate_website_copy
  rw [h]

/-- The orchestrator's wrapping never alters the call trace. -/
theorem generate_trace_eq (svc : Service) (ci : CopyInput) (sections : List String) :
    (generate_website_copy svc ci sections).2 = (generate_core svc ci sections).2 := by
  unfold generate_website_copy
  cases hc : generate_core svc ci sections with
  | mk r t => cases r <;> simp

/-- The section loop only ever appends to the call trace. -/
theorem sectionLoop_trace_ext (svc : Service) (ci : CopyInput) (strategy : String) :
    ∀ (sections : List String) (acc : List (String × String)) (tr : List Prompt),
      ∃ ext, (sectionLoop svc ci strategy sections acc tr).2 = tr ++ ext := by
  intro sections
  induction sections with
  | nil => intro acc tr; exact ⟨[], by simp [sectionLoop]⟩
  | cons s rest ih =>
    intro acc tr
    simp only [sectionLoop, write_website_copy, invokeChain, draft_render_sys,
      draft_render_hum]
    cases hd : svc tr.length (draftSysR ci, draftHumR strategy s ci) with
    | error e => exact ⟨[(draftSysR ci, draftHumR strategy s ci)], by simp⟩
    | ok draft =>
      simp only [review_copy, invokeChain, editor_render_sys, editor_render_hum]
      cases he : svc ((tr ++ [(draftSysR ci, draftHumR strategy s ci)]).length)
          ("You are an expert copy editor.", editorHumR draft) with
      | error e =>
        exact ⟨[(draftSysR ci, draftHumR strategy s ci),
          ("You are an expert copy editor.", editorHumR draft)], by simp⟩
      | ok final =>
        obtain ⟨ext, hext⟩ := ih (dictInsert acc s final)
          ((tr ++ [(draftSysR ci, draftHumR strategy s ci)]) ++
            [("You are an expert copy editor.", editorHumR draft)])
        exact ⟨[(draftSysR ci, draftHumR strategy s ci),
          ("You are an expert copy editor.", editorHumR draft)] ++ ext,
          by rw [hext]; simp⟩

/-- Whatever the service does, the first invocation of a run is the research
prompt: the trace always starts with it. -/
theorem generate_trace_head (svc : Service) (ci : CopyInput) (sections : List String) :
    ∃ restT, (generate_website_copy svc ci sections).2 = researchPromptR ci :: restT := by
  rw [generate_trace_eq]
  simp only [generate_core, analyze_target_audience, invokeChain, research_render_sys,
    research_render_hum, List.length_nil, List.nil_append]
  cases h0 : svc 0 (researchSysR ci, researchHumR ci) with
  | error e => exact ⟨[], rfl⟩
  | ok research =>
    simp only [create_content_strategy, invokeChain, strategy_render_hum,
      List.length_cons, List.length_nil]
    cases hsys : pyFormat (strategyVars research ci) (strategySysT ci) with
    | error e => exact ⟨[], rfl⟩
    | ok sysS =>
      simp only [Nat.zero_add]
      cases h1 : svc 1 (sysS, strategyHumR research ci) with
      | error e => exact ⟨[(sysS, strategyHumR research ci)], rfl⟩
      | ok strat =>
        obtain ⟨ext, hext⟩ := sectionLoop_trace_ext svc ci strat sections []
          ([(researchSysR ci, researchHumR ci)] ++ [(sysS, strategyHumR research ci)])
        refine ⟨(sysS, strategyHumR research ci) :: ext, ?_⟩
        rw [hext]
        simp [researchPromptR]

/-- State-passing translation of `ResearchAgent.analyze_target_audience`
with respect to its `copy_input` argument, which Python passes by reference:
the returned `CopyInput` is the object's state when the method returns.  The
method body (lines 36-58) contains no assignment to `copy_input` or to any of
its fields — it only reads them — so the translated post-state is the
pre-state. -/
def analyze_target_audience_st (svc : Service) (tr : List Prompt) (copy_input : CopyInput) :
    (Except String String × List Prompt) × CopyInput :=
  (analyze_target_audience svc tr copy_input, copy_input)

/-- State-passing translation of `StrategyAgent.create_content_strategy`
(lines 61-84): the body only reads `copy_input`, so the post-state is the
pre-state. -/
def create_content_strategy_st (svc : Service) (tr : List Prompt) (research_data : String)
    (copy_input : CopyInput) : (Except String String × List Prompt) × CopyInput :=
  (create_content_strategy svc tr research_data copy_input, copy_input)

/-- State-passing translation of `CopywritingAgent.write_website_copy`
(lines 87-114): the body only reads `copy_input`, so the post-state is the
pre-state. -/
def write_website_copy_st (svc : Service) (tr : List Prompt) (strategy sec : String)
    (copy_input : CopyInput) : (Except String String × List Prompt) × CopyInput :=
  (write_website_copy svc tr strategy sec copy_input, copy_input)

/-- State-passing translation of the per-section loop, threading the
`CopyInput` object through every stage call that receives it
(`EditorAgent.review_copy` does not receive it). -/
def sectionLoop_st (svc : Service) (strategy : String) :
    List String → CopyInput → List (String × String) → List Prompt →
    (Except String (List (String × String)) × List Prompt) × CopyInput
  | [], ci, acc, tr => ((Except.ok acc, tr), ci)
  | s :: rest, ci, acc, tr =>
    match write_website_copy_st svc tr strategy s ci with
    | ((Except.error e, tr1), ci1) => ((Except.error e, tr1), ci1)
    | ((Except.ok initial_copy, tr1), ci1) =>
      match review_copy svc tr1 initial_copy with
      | (Except.error e, tr2) => ((Except.error e, tr2), ci1)
      | (Except.ok final_copy, tr2) =>
        sectionLoop_st svc strategy rest ci1 (dictInsert acc s final_copy) tr2

/-- State-passing translation of the `try` body of `generate_website_copy`,
threading the `CopyInput` object through the run. -/
def generate_core_st (svc : Service) (ci : CopyInput) (sections : List String) :
    (Except String (List (String × String)) × List Prompt) × CopyInput :=
  match analyze_target_audience_st svc [] ci with
  | ((Except.error e, tr), ci1) => ((Except.error e, tr), ci1)
  | ((Except.ok research, tr), ci1) =>
    match create_content_strategy_st svc tr research ci1 with
    | ((Except.error e, tr1), ci2) => ((Except.error e, tr1), ci2)
    | ((Except.ok strategy, tr1), ci2) => sectionLoop_st svc strategy sections ci2 [] tr1

/-- State-passing translation of `generate_website_copy`, returning both the
run's outcome and the `CopyInput` object's state after the run. -/
def generate_website_copy_st (svc : Service) (ci : CopyInput) (sections : List String) :
    (Except String (List (String × String)) × List Prompt) × CopyInput :=
  match generate_core_st svc ci sections with
  | ((Except.ok res, tr), ci1) => ((Except.ok res, tr), ci1)
  | ((Except.error e, tr), ci1) =>
    ((Except.error ("Copy generation failed: " ++ e), tr), ci1)

theorem sectionLoop_st_spec (svc : Service) (strategy : String) :
    ∀ (sections : List String) (ci : CopyInput) (acc : List (String × String))
      (tr : List Prompt),
      sectionLoop_st svc strategy sections ci acc tr =
        (sectionLoop svc ci strategy sections acc tr, ci) := by
  intro sections
  induction sections with
  | nil => intro ci acc tr; rfl
  | cons s rest ih =>
    intro ci acc tr
    cases hw : write_website_copy svc tr strategy s ci with
    | mk r tr1 =>
      cases r with
      | error e => simp [sectionLoop_st, write_website_copy_st, sectionLoop, hw]
      | ok draft =>
        cases hr : review_copy svc tr1 draft with
        | mk r2 tr2 =>
          cases r2 with
          | error e => simp [sectionLoop_st, write_website_copy_st, sectionLoop, hw, hr]
          | ok final => simp [sectionLoop_st, write_website_copy_st, sectionLoop, hw, hr, ih]

theorem generate_core_st_spec (svc : Service) (ci : CopyInput) (sections : List String) :
    generate_core_st svc ci sections = (generate_core svc ci sections, ci) := by
  cases ha : analyze_target_audience svc [] ci with
  | mk r tr =>
    cases r with
    | error e => simp [generate_core_st, analyze_target_audience_st, generate_core, ha]
    | ok research =>
      cases hc : create_content_strategy svc tr research ci with
      | mk r1 tr1 =>
        cases r1 with
        | error e =>
          simp [generate_core_st, analyze_target_audience_st, create_content_strategy_st,
            generate_core, ha, hc]
        | ok strategy =>
          simp [generate_core_st, analyze_target_audience_st, create_content_strategy_st,
            generate_core, ha, hc, sectionLoop_st_spec]

theorem generate_st_spec (svc : Service) (ci : CopyInput) (sections : List String) :
    generate_website_copy_st svc ci sections = (generate_website_copy svc ci sections, ci) := by
  cases hc : generate_core svc ci sections with
  | mk r tr =>
    cases r with
    | ok res =>
      simp [generate_website_copy_st, generate_website_copy, generate_core_st_spec, hc]
    | error e =>
      simp [generate_website_copy_st, generate_website_copy, generate_core_st_spec, hc]

/-- The example request built in the `__main__` block (lines 165-173). -/
def sampleInput : CopyInput :=
  mkCopyInput "food delivery website" "informative" "short" "food delivery"
    "young urban professionals" "friendly and reliable"
    (some ["30-minute delivery", "local restaurants", "no minimum order"])

/-- A service that answers every call with `"resp"` followed by the call
index. -/
def svcOk : Service := fun n _ => Except.ok ("resp" ++ toString n)

/-- A service that fails exactly on its 3rd call (the call with index 2),
answering every other call. -/
def svcFail3 : Service :=
  fun n _ => if n = 2 then Except.error "boom" else Except.ok ("resp" ++ toString n)

/-- A service that fails exactly on its 2nd call (the call with index 1),
answering every other call. -/
def svcFail2 : Service :=
  fun n _ => if n = 1 then Except.error "boom" else Except.ok ("resp" ++ toString n)

/-- A request whose `product` is the empty string. -/
def emptyProductInput : CopyInput :=
  mkCopyInput "" "informative" "short" "tech" "developers" "friendly" (some ["u1"])

/-- A request whose `tone` is a lone opening brace. -/
def braceToneInput : CopyInput :=
  mkCopyInput "p" "\x7b" "short" "tech" "developers" "bv" (some ["u"])

/-- A request with no unique selling points passed (Python `None` default). -/
def noUspsInput : CopyInput := mkCopyInput "p" "t" "l" "i" "a" "b" none

/-- Two requests identical except for `tone` (used to show the drafting
content message depends on more than the five values named by the spec). -/
def c8ReqA : CopyInput := mkCopyInput "p" "bold" "short" "tech" "devs" "bv" (some ["u"])

/-- See `c8ReqA`. -/
def c8ReqB : CopyInput := mkCopyInput "p" "calm" "short" "tech" "devs" "bv" (some ["u"])

/-- C1: for every CopyRequest and non-empty sections sequence, a successful
`generate_website_copy` returns a result with exactly one entry per distinct
element of `sections`, keys in order of first occurrence and without
duplicates, and the value stored under a name is the final (edited) copy
produced by the last occurrence of that name (`loopFinalsR … [i]?` is the
editing-stage output of occurrence `i`): last write wins. -/
theorem c1_one_entry_per_section_last_write_wins
    (svc : Service) (ci : CopyInput) (sections : List String)
    (result : List (String × String)) (tr : List Prompt)
    (_hne : sections ≠ [])
    (h : generate_website_copy svc ci sections = (Except.ok result, tr)) :
    result.map Prod.fst = eraseDupsKeepFirst sections ∧
    (result.map Prod.fst).Nodup ∧
    ∀ (i : Nat) (s : String), sections[i]? = some s →
      (∀ j, i < j → sections[j]? ≠ some s) →
      List.lookup s result =
        (loopFinalsR svc ci (strategyOut svc ci) 2 sections)[i]? := by
  obtain ⟨hsys, h0, h1, hres, htr⟩ :=
    generate_core_ok svc ci sections result tr (generate_ok_core svc ci sections result tr h)
  have hlen : (loopFinalsR svc ci (strategyOut svc ci) 2 sections).length = sections.length :=
    loopFinalsR_length svc ci (strategyOut svc ci) sections 2
  refine ⟨?_, ?_, ?_⟩
  · rw [hres, map_fst_dictInsertAll]
    simp only [List.map_nil, List.nil_append]
    rw [List.map_fst_zip sections _ (le_of_eq hlen.symm)]
    rfl
  · rw [hres, map_fst_dictInsertAll]
    simp only [List.map_nil, List.nil_append]
    rw [List.map_fst_zip sections _ (le_of_eq hlen.symm)]
    exact (edkfGo_nodup sections []).1
  · intro i s hi hlater
    rw [hres, lookup_dictInsertAll]
    rw [lastFind_zip_lastOcc sections _ i s hlen hi hlater]
    have hlt : i < sections.length := by
      by_contra hge
      rw [List.getElem?_eq_none (Nat.le_of_not_lt hge)] at hi
      simp at hi
    rw [List.getElem?_eq_getElem (hlen ▸ hlt)]

/-- Witness for C1 at a concrete input with a duplicated section name:
the run succeeds, keys are `a, b` (first-occurrence order, no duplicate),
and the value under `a` is the edit output of the second occurrence
(service call 7), not the first (call 3). -/
theorem c1_witness :
    (generate_website_copy svcOk sampleInput ["a", "b", "a"]).1 =
      Except.ok [("a", "resp7"), ("b", "resp5")] ∧
    [("a", "resp7"), ("b", "resp5")].map Prod.fst = eraseDupsKeepFirst ["a", "b", "a"] := by
  refine ⟨rfl, ?_⟩
  exact (c1_one_entry_per_section_last_write_wins svcOk sampleInput ["a", "b", "a"]
    [("a", "resp7"), ("b", "resp5")] _ (by simp) rfl).1

/-- C2: a successful run makes exactly `2 + 2 * n` service calls, in the
order research, strategy, then for each section occurrence a draft call
immediately followed by an edit call; the edit call's prompt for an
occurrence is built (via `editorPromptR`) from exactly the service's answer
to that occurrence's draft call — i.e. EditingStage's input is exactly
DraftingStage's output for the same occurrence, with no cross-section
leakage. -/
theorem c2_service_call_order
    (svc : Service) (ci : CopyInput) (sections : List String)
    (result : List (String × String)) (tr : List Prompt)
    (h : generate_website_copy svc ci sections = (Except.ok result, tr)) :
    tr.length = 2 + 2 * sections.length ∧
    tr = researchPromptR ci :: strategyPromptR svc ci ::
      loopTraceR svc ci (strategyOut svc ci) 2 sections ∧
    tr[0]? = some (researchPromptR ci) ∧
    tr[1]? = some (strategyPromptR svc ci) ∧
    ∀ (i : Nat) (s : String), sections[i]? = some s →
      tr[2 + 2 * i]? = some (draftPromptR (strategyOut svc ci) s ci) ∧
      tr[2 + 2 * i + 1]? = some (editorPromptR (okValue (svc (2 + 2 * i)
        (draftPromptR (strategyOut svc ci) s ci)))) := by
  obtain ⟨hsys, h0, h1, hres, htr⟩ :=
    generate_core_ok svc ci sections result tr (generate_ok_core svc ci sections result tr h)
  refine ⟨?_, htr, ?_, ?_, ?_⟩
  · rw [htr]
    simp only [List.length_cons, loopTraceR_length]
    omega
  · rw [htr]; simp
  · rw [htr]; simp
  · intro i s hi
    obtain ⟨hA, hB⟩ := loopTraceR_getElem svc ci (strategyOut svc ci) sections 2 i s hi
    have harith : 2 + 2 * i = 2 * i + 1 + 1 := by ring
    constructor
    · rw [htr, harith, List.getElem?_cons_succ, List.getElem?_cons_succ]
      exact hA
    · rw [htr, harith, List.getElem?_cons_succ, List.getElem?_cons_succ]
      rw [← harith]
      exact hB

/-- Witness for C2 at a concrete input: one section gives exactly
`2 + 2 * 1 = 4` service calls. -/
theorem c2_witness :
    (generate_website_copy svcOk sampleInput ["homepage"]).2.length = 2 + 2 * 1 :=
  (c2_service_call_order svcOk sampleInput ["homepage"] [("homepage", "resp3")] _ rfl).1

/-- Counterexample for C3 as stated: with a service that fails exactly on
the 3rd call (index 2) and the sample request with one section, the run does
fail with the wrapped message, but a 3rd call was made and it was a DRAFTING
call (its system message is the drafting role instruction), contradicting
the claim that when the service fails on the 3rd call no drafting call is
ever made — the strategy stage is the 2nd call, not the 3rd. -/
theorem c3_counterexample_third_call_is_draft :
    (generate_website_copy svcFail3 sampleInput ["homepage"]).1 =
      Except.error "Copy generation failed: boom" ∧
    svcFail3 2 ((generate_website_copy svcFail3 sampleInput ["homepage"]).2.getD 2 ("", "")) =
      Except.error "boom" ∧
    (generate_website_copy svcFail3 sampleInput ["homepage"]).2.length = 3 ∧
    ((generate_website_copy svcFail3 sampleInput ["homepage"]).2.getD 2 ("", "")).1 =
      "Expert copywriter creating short informative content." :=
  ⟨rfl, rfl, rfl, rfl⟩

/-- C3 (amended): any failure of the `try` body yields no result mapping and
a single generic pipeline failure whose description includes the original
failure's description; and in particular, if the service fails on the 2nd
call (the strategy stage), the run fails wrapped and the trace is exactly
the research and strategy calls — no drafting or editing call is ever made
for any section. -/
theorem c3_failure_wrapped_no_partial_result :
    (∀ (svc : Service) (ci : CopyInput) (sections : List String) (e : String)
       (tr : List Prompt),
      generate_core svc ci sections = (Except.error e, tr) →
      generate_website_copy svc ci sections =
        (Except.error ("Copy generation failed: " ++ e), tr)) ∧
    (∀ (svc : Service) (ci : CopyInput) (sections : List String) (e : String),
      (∃ r, svc 0 (researchPromptR ci) = Except.ok r) →
      (∃ s, pyFormat (strategyVars (researchOut svc ci) ci) (strategySysT ci) =
        Except.ok s) →
      svc 1 (strategyPromptR svc ci) = Except.error e →
      generate_website_copy svc ci sections =
        (Except.error ("Copy generation failed: " ++ e),
          [researchPromptR ci, strategyPromptR svc ci])) := by
  constructor
  · intro svc ci sections e tr h
    exact generate_error_wrap svc ci sections e tr h
  · intro svc ci sections e hr0 hsysEx h1
    obtain ⟨r0, h0⟩ := hr0
    obtain ⟨sS, hS⟩ := hsysEx
    have hro : researchOut svc ci = r0 := by simp [researchOut, h0, okValue]
    rw [hro] at hS
    have hsp : strategyPromptR svc ci = (sS, strategyHumR r0 ci) := by
      simp [strategyPromptR, hro, hS, okValue]
    rw [hsp] at h1
    have hcore : generate_core svc ci sections =
        (Except.error e, [researchPromptR ci, strategyPromptR svc ci]) := by
      simp only [generate_core, analyze_target_audience, invokeChain, research_render_sys,
        research_render_hum, List.length_nil, List.nil_append]
      simp only [researchPromptR] at h0
      rw [h0]
      simp only [create_content_strategy, invokeChain, strategy_render_hum,
        List.length_cons, List.length_nil, Nat.zero_add]
      rw [hS]
      simp only [Nat.zero_add]
      rw [h1]
      simp [researchPromptR, hsp]
    exact generate_error_wrap svc ci sections e _ hcore

/-- Witness for the amended C3: the service fails on its 2nd call, the run
fails wrapped, and exactly the research and strategy calls were made. -/
theorem c3_witness :
    generate_website_copy svcFail2 sampleInput ["homepage"] =
      (Except.error ("Copy generation failed: " ++ "boom"),
        [researchPromptR sampleInput, strategyPromptR svcFail2 sampleInput]) :=
  c3_failure_wrapped_no_partial_result.2 svcFail2 sampleInput ["homepage"] "boom"
    ⟨"resp0", rfl⟩
    ⟨"You are a content strategist specializing in informative copy.", rfl⟩
    rfl

/-- Counterexample for C4 as stated: with an empty `product` and a
cooperating service, `generate_website_copy` does not raise any validation
failure before calling the service — it runs to successful completion and
the service is invoked 4 times. -/
theorem c4_counterexample_no_validation :
    emptyProductInput.product = "" ∧
    (generate_website_copy svcOk emptyProductInput ["homepage"]).1 =
      Except.ok [("homepage", "resp3")] ∧
    (generate_website_copy svcOk emptyProductInput ["homepage"]).2.length = 4 :=
  ⟨rfl, rfl, rfl⟩

/-- C4 (amended): the orchestrator performs no validation of `product`;
even when `product` is the empty string, at least one service invocation is
made, and the first invocation is the research call. -/
theorem c4_no_validation_service_still_called
    (svc : Service) (ci : CopyInput) (sections : List String)
    (_hp : ci.product = "") :
    1 ≤ (generate_website_copy svc ci sections).2.length ∧
    ∃ restT, (generate_website_copy svc ci sections).2 = researchPromptR ci :: restT := by
  obtain ⟨restT, hr⟩ := generate_trace_head svc ci sections
  exact ⟨by rw [hr]; simp, restT, hr⟩

/-- Witness for the amended C4 at a concrete empty-product input. -/
theorem c4_witness :
    1 ≤ (generate_website_copy svcOk emptyProductInput ["homepage"]).2.length :=
  (c4_no_validation_service_still_called svcOk emptyProductInput ["homepage"] rfl).1

/-- C5: the value bound to the `usps` placeholder of the strategy and
drafting prompts is the elements of `unique_selling_points` joined with
`", "` in sequence order (`String.intercalate ", "`, the model of Python's
`", ".join`); it is placed into the rendered strategy content; and when the
sequence is empty the joined value is the empty string, not the literal word
`"None"`. -/
theorem c5_usps_join_comma_space (research strategy sec : String) (ci : CopyInput) :
    (strategyVars research ci).lookup "usps" =
      some (String.intercalate ", " ci.unique_selling_points) ∧
    (draftVars strategy sec ci).lookup "usps" =
      some (String.intercalate ", " ci.unique_selling_points) ∧
    pyFormat (strategyVars research ci) strategyHumT =
      Except.ok (strategyHumR research ci) ∧
    (ci.unique_selling_points = [] →
      String.intercalate ", " ci.unique_selling_points = "" ∧
      String.intercalate ", " ci.unique_selling_points ≠ "None") := by
  refine ⟨rfl, rfl, strategy_render_hum research ci, ?_⟩
  intro h
  rw [h]
  exact ⟨rfl, by decide⟩

/-- Witness for C5 at a request constructed with no unique selling points. -/
theorem c5_witness :
    (strategyVars "r" noUspsInput).lookup "usps" =
      some (String.intercalate ", " noUspsInput.unique_selling_points) ∧
    String.intercalate ", " noUspsInput.unique_selling_points = "" :=
  ⟨(c5_usps_join_comma_space "r" "s" "sec" noUspsInput).1,
   ((c5_usps_join_comma_space "r" "s" "sec" noUspsInput).2.2.2 rfl).1⟩

/-- C6: `unique_selling_points` is always a list after construction — the
empty list when `None` is passed, the given list otherwise — and no stage or
orchestrator operation mutates the CopyRequest: the state-passing
translation of the run returns the request unchanged, while computing
exactly the same outcome as the pipeline. -/
theorem c6_request_never_mutated :
    (∀ p t l ind ta bv,
      (mkCopyInput p t l ind ta bv none).unique_selling_points = []) ∧
    (∀ p t l ind ta bv usps,
      (mkCopyInput p t l ind ta bv (some usps)).unique_selling_points = usps) ∧
    (∀ (svc : Service) (ci : CopyInput) (sections : List String),
      (generate_website_copy_st svc ci sections).2 = ci ∧
      (generate_website_copy_st svc ci sections).1 = generate_website_copy svc ci sections) := by
  refine ⟨fun _ _ _ _ _ _ => rfl, ?_, ?_⟩
  · intro p t l ind ta bv usps
    cases usps with
    | nil => rfl
    | cons x xs => rfl
  · intro svc ci sections
    rw [generate_st_spec]
    exact ⟨rfl, rfl⟩

/-- C7: the orchestrator is deterministic: two runs with the same request,
the same sections and the same service function (a fixed function from
prompts to responses) issue the identical call sequence and return the
identical result. -/
theorem c7_deterministic (f : Prompt → Except String String) (ci : CopyInput)
    (sections : List String)
    (run1 run2 : Except String (List (String × String)) × List Prompt)
    (h1 : run1 = generate_website_copy (fun _ p => f p) ci sections)
    (h2 : run2 = generate_website_copy (fun _ p => f p) ci sections) :
    run1.2 = run2.2 ∧ run1.1 = run2.1 := by
  subst h1
  subst h2
  exact ⟨rfl, rfl⟩

/-- Witness for C7 at a concrete service and request. -/
theorem c7_witness :
    (generate_website_copy (fun _ _ => Except.ok "r") sampleInput ["homepage"]).2 =
      (generate_website_copy (fun _ _ => Except.ok "r") sampleInput ["homepage"]).2 :=
  (c7_deterministic (fun _ => Except.ok "r") sampleInput ["homepage"] _ _ rfl rfl).1

/-- Counterexample for C8 as stated: two requests that agree on the product,
brand voice and unique selling points (and are queried with the same
strategy narrative and section name) nevertheless produce different drafting
content messages, because the content message also interpolates the
request's `tone` (and `length`): the content message does not supply
*exactly* the five values named by the claim. -/
theorem c8_counterexample_content_depends_on_tone :
    c8ReqA.product = c8ReqB.product ∧
    c8ReqA.brand_voice = c8ReqB.brand_voice ∧
    c8ReqA.unique_selling_points = c8ReqB.unique_selling_points ∧
    okValue (pyFormat (draftVars "strat" "homepage" c8ReqA) draftHumT) ≠
      okValue (pyFormat (draftVars "strat" "homepage" c8ReqB) draftHumT) := by
  refine ⟨rfl, rfl, rfl, ?_⟩
  decide

/-- C8 (amended): the drafting request's role-framing instruction is
parameterized by exactly the request's `length` and `tone`, and its content
message supplies the strategy narrative, the section name, `product`,
`brand_voice` and the joined unique selling points — and is additionally
parameterized by the request's `tone` and `length`, interpolated into its
instruction lines. -/
theorem c8_draft_prompt_contents (strategy sec : String) (ci : CopyInput) :
    pyFormat (draftVars strategy sec ci) draftSysT =
      Except.ok (String.join ["Expert copywriter creating ", ci.length, " ",
        ci.tone, " content."]) ∧
    pyFormat (draftVars strategy sec ci) draftHumT =
      Except.ok (String.join ["\n                Strategy: ", strategy,
        "\n                Section: ", sec,
        "\n                Product: ", ci.product,
        "\n                Brand Voice: ", ci.brand_voice,
        "\n                USPs: ", String.intercalate ", " ci.unique_selling_points,
        "\n                \n                Write compelling copy focusing on:\n                - Clear value proposition\n                - Engaging headlines\n                - ", ci.tone,
        " body copy of ", ci.length,
        " length\n                - Strategic CTAs\n            "]) :=
  ⟨rfl, rfl⟩

/-- Counterexample for C9 as stated: the claim quantifies over every
CopyRequest, but for the request whose `tone` is `"\x7b"`, even with a
service that answers every call, the empty-sections run does not succeed and
does not invoke the service twice — the strategy stage's f-string prompt
template fails to render, so the run fails with the wrapped pipeline failure
after exactly one service invocation (the research call). -/
theorem c9_counterexample_brace_tone_fails :
    generate_website_copy svcOk braceToneInput [] =
      (Except.error ("Copy generation failed: " ++
        "expected closing brace before end of string"),
        [researchPromptR braceToneInput]) :=
  rfl

/-- C9 (amended): for every CopyRequest whose `tone` contains no brace
character (so the strategy stage's f-string prompt template renders) and
every service that answers every call, a run with an empty sections sequence
succeeds with an empty mapping and the service is invoked exactly twice:
the research call and the strategy call; drafting and editing are never
invoked. -/
theorem c9_empty_sections_two_calls (svc : Service) (ci : CopyInput)
    (htone : braceFreeStr ci.tone = true)
    (hsvc : ∀ n p, ∃ r, svc n p = Except.ok r) :
    generate_website_copy svc ci [] =
      (Except.ok [], [researchPromptR ci, strategyPromptR svc ci]) := by
  obtain ⟨r0, h0⟩ := hsvc 0 (researchPromptR ci)
  have hro : researchOut svc ci = r0 := by simp [researchOut, h0, okValue]
  have hsys := strategy_render_sys_braceFree r0 ci htone
  have hsp : strategyPromptR svc ci = (strategySysT ci, strategyHumR r0 ci) := by
    simp [strategyPromptR, hro, hsys, okValue]
  obtain ⟨r1, h1⟩ := hsvc 1 (strategyPromptR svc ci)
  rw [hsp] at h1
  simp only [generate_website_copy, generate_core, analyze_target_audience, invokeChain,
    research_render_sys, research_render_hum, List.length_nil, List.nil_append]
  simp only [researchPromptR] at h0
  rw [h0]
  simp only [create_content_strategy, invokeChain, strategy_render_hum,
    List.length_cons, List.length_nil, Nat.zero_add]
  rw [hsys]
  simp only [Nat.zero_add]
  rw [h1]
  simp [sectionLoop, researchPromptR, hsp]

/-- Witness for C9 at a concrete request and service. -/
theorem c9_witness :
    generate_website_copy svcOk sampleInput [] =
      (Except.ok [], [researchPromptR sampleInput, strategyPromptR svcOk sampleInput]) :=
  c9_empty_sections_two_calls svcOk sampleInput (by decide)
    (fun n _ => ⟨"resp" ++ toString n, rfl⟩)

/-- C10: the strategy stage interpolates `tone` into the role-framing
template text itself (the f-string, first conjunct); hence for any brace-free
tone the strategy system prompt is constructed successfully and renders to
itself (second conjunct), while for the tone `"\x7b"` the strategy stage
fails during prompt construction — before any service call for that stage —
and the failure surfaces as the orchestrator's wrapped pipeline failure,
with only the research call in the trace (third conjunct). -/
theorem c10_tone_interpolated_in_template_text :
    (∀ ci : CopyInput, strategySysT ci =
      "You are a content strategist specializing in " ++ ci.tone ++ " copy.") ∧
    (∀ (ci : CopyInput) (research : String), braceFreeStr ci.tone = true →
      pyFormat (strategyVars research ci) (strategySysT ci) =
        Except.ok (strategySysT ci)) ∧
    generate_website_copy svcOk braceToneInput ["homepage"] =
      (Except.error ("Copy generation failed: " ++
        "expected closing brace before end of string"),
        [researchPromptR braceToneInput]) :=
  ⟨fun _ => rfl,
   fun ci research h => strategy_render_sys_braceFree research ci h,
   rfl⟩

/-- Witness for C10's brace-free conjunct at a concrete tone. -/
theorem c10_witness :
    pyFormat (strategyVars "r" sampleInput) (strategySysT sampleInput) =
      Except.ok (strategySysT sampleInput) :=
  c10_tone_interpolated_in_template_text.2.1 sampleInput "r" (by decide)

end Copywriter
